import Mathlib

/-!
Shallow embedding of the card-key activation endpoint.

The repository contains three variants of the same handler:

* `src/src/index.ts`, `onRequest` — 16-character keys, the store keeps
  `expires_at` directly; modelled below as `onRequest` over `RowIdx` rows.
* `src/unnamed/part_000`, first document, `fetch` — 5x5-grouped keys, the
  store keeps a nullable `first_used_at` and the expiry is derived at read
  time; modelled below as `fetchA` over `CardRow` rows.
* `src/unnamed/part_000`, second document (the CORS revision), `fetch` —
  same schema as variant A but with store-side clock reads; modelled below
  as `fetchB`.

Machine integers are modelled as `Nat` (epoch seconds never overflow the
JS safe range in scope here); the `expires_in` field of a response is an
`Int`, matching the JS subtraction that produces it.  The session token is
an opaque random identifier and is not modelled; of the `Set-Cookie`
header we model the `Max-Age` attribute, the only varying numeric part
(the rest of the cookie string is the constant
`session=<token>; Path=/; HttpOnly; Secure; SameSite=Strict`).

Clock values are explicit parameters: `tRead` is the value of the store
clock `strftime('%s','now')` during the SELECT, `now` is the value used in
the branch logic (`Math.floor(Date.now()/1000)` in `onRequest`/`fetchA`, a
second store round trip in `fetchB`), and `fetchB` additionally takes
`tWrite`, the store clock at the UPDATE.
-/

/-- Response codes of the endpoint, as in the source. -/
inductive RCode where
  | INVALID_INPUT
  | INVALID_CARD
  | CARD_EXPIRED
  | SESSION_RENEWED
  | ACTIVATION_SUCCESS
  | SERVER_ERROR
deriving DecidableEq, BEq

/-- The observable response: the JSON body fields that vary
(`valid`, `code`, `expires_in`), the HTTP status, and the cookie
`Max-Age` (`none` when no `Set-Cookie` header is emitted). -/
structure Resp where
  valid : Bool
  code : RCode
  expires_in : Option Int := none
  status : Nat := 200
  cookieMaxAge : Option Int := none
deriving DecidableEq

/-- Store row of `src/src/index.ts`: `card_key`, stored `expires_at`,
`is_used`, optional `activated_at`. -/
structure RowIdx where
  card_key : String
  expires_at : Nat
  is_used : Bool
  activated_at : Option Nat
deriving DecidableEq

/-- Store row of both `part_000` variants: `key_code`, `is_used`,
nullable `first_used_at` (the schema in spec section 6). -/
structure CardRow where
  key_code : String
  is_used : Bool
  first_used_at : Option Nat
deriving DecidableEq

/-- The activation window, `24 * 60 * 60` seconds, as interpolated into
the SQL of both `part_000` variants and the UPDATE of `index.ts`. -/
def WINDOW : Nat := 24 * 60 * 60

/-- Character class `[A-Z0-9]` of the zod regexes, by code point:
`A`-`Z` is 65-90 and `0`-`9` is 48-57. -/
def isKeyChar (c : Char) : Bool :=
  (decide (65 ≤ c.toNat) && decide (c.toNat ≤ 90)) ||
  (decide (48 ≤ c.toNat) && decide (c.toNat ≤ 57))

/-- `index.ts` validator: `z.string().length(16).regex(/^[A-Z0-9]+$/)`. -/
def validKey16 (s : String) : Bool :=
  s.length == 16 && s.data.all isKeyChar

/-- Splits a character list at every dash (the single-character analogue
of splitting a string on the separator `-`): `A-B` becomes `[A, B]`,
consecutive or leading/trailing dashes produce empty groups. -/
def splitDash : List Char → List (List Char)
  | [] => [[]]
  | c :: cs =>
    if c.toNat = 45 then [] :: splitDash cs
    else
      match splitDash cs with
      | g :: gs => (c :: g) :: gs
      | [] => [[c]]

/-- `part_000` validator: the regex
`^[A-Z0-9]{5}-[A-Z0-9]{5}-[A-Z0-9]{5}-[A-Z0-9]{5}-[A-Z0-9]{5}$`,
i.e. exactly five groups of five `[A-Z0-9]` separated by single dashes
(the dash, code point 45, is not in the class `[A-Z0-9]`). -/
def validKey5x5 (s : String) : Bool :=
  match splitDash s.data with
  | [a, b, c, d, e] =>
      (a.length == 5 && a.all isKeyChar) && (b.length == 5 && b.all isKeyChar) &&
      (c.length == 5 && c.all isKeyChar) && (d.length == 5 && d.all isKeyChar) &&
      (e.length == 5 && e.all isKeyChar)
  | _ => false

/-- The `INVALID_CARD` body (valid:false, HTTP 200, no cookie): the same
literal is produced for an absent key and for a key excluded by the read
filter, in every variant. -/
def invalidCardResp : Resp := { valid := false, code := RCode.INVALID_CARD }

/-- The `CARD_EXPIRED` body (valid:false, HTTP 200, no cookie). -/
def cardExpiredResp : Resp := { valid := false, code := RCode.CARD_EXPIRED }

/-- The `SERVER_ERROR` response of `index.ts`: `{ status: 500 }`. -/
def serverErrorResp : Resp := { valid := false, code := RCode.SERVER_ERROR, status := 500 }

/-- The `INVALID_INPUT` response of `index.ts` and of `part_000` variant A:
both pass `{ status: 400 }`. -/
def invalidInputResp400 : Resp := { valid := false, code := RCode.INVALID_INPUT, status := 400 }

/-- The `INVALID_INPUT` response of `part_000` variant B: the CORS revision
builds `new Response(body, { headers })` with no `status` field, so the
HTTP status is the `Response` default, 200. -/
def invalidInputResp200 : Resp := { valid := false, code := RCode.INVALID_INPUT, status := 200 }

/-- A `SESSION_RENEWED` response: `expires_in` and the cookie `Max-Age`
are the same `remainingTime` value, in every variant. -/
def renewedResp (remaining : Int) : Resp :=
  { valid := true, code := RCode.SESSION_RENEWED,
    expires_in := some remaining, cookieMaxAge := some remaining }

/-- The `ACTIVATION_SUCCESS` response of both `part_000` variants:
`expires_in = 24 * 60 * 60` and the same value as cookie `Max-Age`. -/
def activationResp24 : Resp :=
  { valid := true, code := RCode.ACTIVATION_SUCCESS,
    expires_in := some ((WINDOW : Nat) : Int), cookieMaxAge := some ((WINDOW : Nat) : Int) }

/-- The `ACTIVATION_SUCCESS` response of `index.ts`: `expires_in: 2592000`
and `Max-Age=2592000` (the 30-day literal in the source). -/
def activationResp30d : Resp :=
  { valid := true, code := RCode.ACTIVATION_SUCCESS,
    expires_in := some 2592000, cookieMaxAge := some 2592000 }

/-- The filtered read of `index.ts`:
`SELECT * FROM card_keys WHERE card_key = ? AND expires_at > strftime('%s','now')`,
with `.first()` returning the first matching row. -/
def selectIdx (s : List RowIdx) (k : String) (tRead : Nat) : Option RowIdx :=
  s.find? (fun r => r.card_key == k && decide (tRead < r.expires_at))

/-- The filtered read of `part_000` variant A:
`WHERE key_code = ? AND (first_used_at IS NULL OR first_used_at + 86400 > strftime('%s','now'))`. -/
def selectA (s : List CardRow) (k : String) (tRead : Nat) : Option CardRow :=
  s.find? (fun r => r.key_code == k &&
    (r.first_used_at.isNone || decide (tRead < r.first_used_at.getD 0 + WINDOW)))

/-- The filtered read of `part_000` variant B:
`WHERE key_code = ? AND (first_used_at IS NULL OR first_used_at + 86400 - strftime('%s','now'))>0`.
Note the parenthesisation of the source: the `>0` applies to the whole
parenthesised expression.  SQLite evaluates `(a IS NULL OR x)` as a
three-valued boolean - it is 1 when `first_used_at` is NULL, and otherwise
1 exactly when the number `first_used_at + 86400 - now` is nonzero - so
for a non-null `first_used_at` the row passes the filter whenever
`first_used_at + 86400` differs from the read-time clock, including every
already-expired row. -/
def selectB (s : List CardRow) (k : String) (tRead : Nat) : Option CardRow :=
  s.find? (fun r => r.key_code == k &&
    (r.first_used_at.isNone || decide (r.first_used_at.getD 0 + WINDOW ≠ tRead)))

/-- JS reading of `result.first_used_at` in arithmetic position: `null`
coerces to `0` (`null + 86400 === 86400`). -/
def fuaJS (r : CardRow) : Nat := r.first_used_at.getD 0

/-- The activation UPDATE of `index.ts`:
`UPDATE card_keys SET is_used = TRUE, activated_at = ?, expires_at = ? WHERE card_key = ?`
bound to `(now, now + 24*60*60, cardKey)`.  Every row whose key matches is
rewritten; there is no `is_used = false` condition in the WHERE clause. -/
def updateIdx (s : List RowIdx) (k : String) (now : Nat) : List RowIdx :=
  s.map fun r => if r.card_key == k then
    { r with is_used := true, activated_at := some now, expires_at := now + WINDOW }
  else r

/-- The activation UPDATE of `part_000` variant A:
`UPDATE card_keys SET is_used = TRUE, first_used_at = ? WHERE key_code = ?`.
The source binds three values `(now, now + expiresIn, cardKey)` to the two
placeholders; we model the statement's evident intent,
`first_used_at := now` on the rows whose key matches.  As in the other
variants the WHERE clause has no `is_used = false` condition. -/
def updateA (s : List CardRow) (k : String) (now : Nat) : List CardRow :=
  s.map fun r => if r.key_code == k then
    { r with is_used := true, first_used_at := some now }
  else r

/-- The activation UPDATE of `part_000` variant B:
`UPDATE card_keys SET is_used = 1, first_used_at = strftime('%s','now') WHERE key_code = ?`,
stamping the store clock at write time (`tWrite`).  No `is_used = false`
condition in the WHERE clause. -/
def updateB (s : List CardRow) (k : String) (tWrite : Nat) : List CardRow :=
  s.map fun r => if r.key_code == k then
    { r with is_used := true, first_used_at := some tWrite }
  else r

/-- The `onRequest` handler of `src/src/index.ts`, after transport
(method routing, JSON body parsing) has produced the `cardKey` string.
`dbFail` injects a store/runtime fault: a D1 statement that throws lands
in the catch-all and becomes `SERVER_ERROR` with HTTP 500.  Validation
(the zod parse) runs before any store access, so an invalid key is
rejected even when the store is failing. -/
def onRequest (dbFail : Bool) (s : List RowIdx) (cardKey : String) (tRead now : Nat) :
    Resp × List RowIdx :=
  if validKey16 cardKey = false then (invalidInputResp400, s)
  else if dbFail = true then (serverErrorResp, s)
  else
    match selectIdx s cardKey tRead with
    | none => (invalidCardResp, s)
    | some r =>
      if r.is_used = true then
        if r.expires_at < now then (cardExpiredResp, s)
        else (renewedResp ((r.expires_at : Int) - (now : Int)), s)
      else (activationResp30d, updateIdx s cardKey now)

/-- The `fetch` handler of `part_000` variant A, after transport.
`tRead` is the store clock at the SELECT, `now` is
`Math.floor(Date.now()/1000)` used in the branch and in the write stamp. -/
def fetchA (s : List CardRow) (cardKey : String) (tRead now : Nat) :
    Resp × List CardRow :=
  if validKey5x5 cardKey = false then (invalidInputResp400, s)
  else
    match selectA s cardKey tRead with
    | none => (invalidCardResp, s)
    | some r =>
      if r.is_used = true then
        if fuaJS r + WINDOW < now then (cardExpiredResp, s)
        else (renewedResp ((fuaJS r + WINDOW : Int) - (now : Int)), s)
      else (activationResp24, updateA s cardKey now)

/-- The `fetch` handler of `part_000` variant B (the CORS revision), after
transport.  The three clock readings are distinct store round trips:
`tRead` at the SELECT filter, `now` from the dedicated
`SELECT strftime('%s','now')` used by the branch, `tWrite` inside the
UPDATE.  Its `INVALID_INPUT` response carries HTTP status 200 (the source
passes no `status` to `new Response`). -/
def fetchB (s : List CardRow) (cardKey : String) (tRead now tWrite : Nat) :
    Resp × List CardRow :=
  if validKey5x5 cardKey = false then (invalidInputResp200, s)
  else
    match selectB s cardKey tRead with
    | none => (invalidCardResp, s)
    | some r =>
      if r.is_used = true then
        if fuaJS r + WINDOW < now then (cardExpiredResp, s)
        else (renewedResp ((fuaJS r + WINDOW : Int) - (now : Int)), s)
      else (activationResp24, updateB s cardKey tWrite)

/-- A concrete well-formed 5x5 key used by the concrete evaluations. -/
def K5 : String := "AAAAA-AAAAA-AAAAA-AAAAA-AAAAA"

/-- A concrete well-formed 16-character key used by the concrete
evaluations against `index.ts`. -/
def K16 : String := "ABCDEFGHIJ123456"

/-- A provisioned, never-used `part_000` row for `K5`. -/
def rowUnused : CardRow := { key_code := K5, is_used := false, first_used_at := none }

/-- A used `part_000` row for `K5`, first used at `u`. -/
def rowUsedAt (u : Nat) : CardRow := { key_code := K5, is_used := true, first_used_at := some u }

/-- A provisioned, never-used `index.ts` row for `K16` whose stored
`expires_at` (1000000) is still in the future at the times considered. -/
def rowIdxFresh : RowIdx :=
  { card_key := K16, expires_at := 1000000, is_used := false, activated_at := none }

/-- A used `index.ts` row for `K16` with stored expiry `e`, activated at `a`. -/
def rowIdxUsed (e a : Nat) : RowIdx :=
  { card_key := K16, expires_at := e, is_used := true, activated_at := some a }

/-- Claim C1.  The first-activation write in the source is NOT conditional
on `is_used = false`: the UPDATE of `part_000` variant B (and likewise the
other variants) is scoped to `WHERE key_code = ?` alone.  Two concurrent
resolve calls against the never-used code `AAAAA-AAAAA-AAAAA-AAAAA-AAAAA`
that both perform their filtered read against the initial store (before
either UPDATE lands) both take the activation branch and both return
`ACTIVATION_SUCCESS`; both UPDATE statements then mutate the row, the
second (write clock 1001) silently overwriting the first activation stamp
(write clock 1000).  The last conjunct shows the missing guard directly:
the UPDATE rewrites `first_used_at` even on a row that is already used. -/
theorem C1_unconditional_update_double_activation :
    (fetchB [rowUnused] K5 1000 1000 1000).1.code = RCode.ACTIVATION_SUCCESS
    ∧ (fetchB [rowUnused] K5 1001 1001 1001).1.code = RCode.ACTIVATION_SUCCESS
    ∧ (fetchB [rowUnused] K5 1000 1000 1000).2 = [rowUsedAt 1000]
    ∧ updateB (updateB [rowUnused] K5 1000) K5 1001 = [rowUsedAt 1001]
    ∧ updateB [rowUsedAt 77] K5 1001 = [rowUsedAt 1001] := by decide

/-- Claim C2.  In `index.ts`, first activation of the never-used,
non-expired code `ABCDEFGHIJ123456` at time 500 returns
`ACTIVATION_SUCCESS` with `expires_in = 2592000` (the 30-day literal) and
cookie `Max-Age = 2592000`, while the store is updated to
`expires_at = 500 + 24*60*60` (the 24-hour window): the advertised window
and the recorded window disagree, contradicting the claim that both equal
the same `WINDOW`. -/
theorem C2_window_mismatch_on_activation :
    (onRequest false [rowIdxFresh] K16 500 500).1 = activationResp30d
    ∧ activationResp30d.expires_in = some 2592000
    ∧ activationResp30d.cookieMaxAge = some 2592000
    ∧ (onRequest false [rowIdxFresh] K16 500 500).2 = [rowIdxUsed (500 + 24 * 60 * 60) 500]
    ∧ ((500 + 24 * 60 * 60 : Nat) == 500 + 2592000) = false := by decide

/-- Claim C3, counterexample.  A code first used at time 100, resolved by
`part_000` variant A under a single clock at time 90000 (more than WINDOW
seconds after first use), is excluded by the filtered read and the call
returns `INVALID_CARD`, not the `CARD_EXPIRED` the claim requires. -/
theorem C3_expired_returns_invalid_card :
    (fetchA [rowUsedAt 100] K5 90000 90000).1 = invalidCardResp
    ∧ (invalidCardResp.code == RCode.CARD_EXPIRED) = false := by decide

/-- Claim C6, counterexample.  In `part_000` variant B, a record with
`first_used_at = 100000` (so expiry 186400) read at store time 186399 and
branched at store time 186400 yields `SESSION_RENEWED` with
`expires_in = 0`, refuting the claim that the remaining value is strictly
greater than 0 for every `SESSION_RENEWED` response. -/
theorem C6_zero_remaining_renewal :
    (fetchB [rowUsedAt 100000] K5 186399 186400 186400).1.code = RCode.SESSION_RENEWED
    ∧ (fetchB [rowUsedAt 100000] K5 186399 186400 186400).1.expires_in = some 0 := by decide

/-- Claim C10, counterexample.  In `part_000` variant B the read filter
`(first_used_at IS NULL OR first_used_at + 86400 - strftime('%s','now'))>0`
passes every used row whose expiry differs from the read clock, so a long
expired record (`first_used_at = 0`) resolved with a single time value
100000 for the read, the branch and the write still reaches the
`CARD_EXPIRED` branch - refuting the claim that `CARD_EXPIRED` is
unreachable when the branch time equals the read-filter time. -/
theorem C10_expired_with_single_clock :
    (fetchB [rowUsedAt 0] K5 100000 100000 100000).1 = cardExpiredResp := by decide

/-- On the renewal path of `part_000` variant A (row found, used,
not past its derived expiry), the handler returns `SESSION_RENEWED` with
the recomputed remaining time and leaves the store untouched. -/
theorem fetchA_renew (s : List CardRow) (k : String) (tRead now : Nat) (r : CardRow) (u : Nat)
    (hv : validKey5x5 k = true) (hsel : selectA s k tRead = some r)
    (hu : r.is_used = true) (hf : r.first_used_at = some u) (hle : now ≤ u + WINDOW) :
    fetchA s k tRead now = (renewedResp ((u + WINDOW : Int) - (now : Int)), s) := by
  have hfj : fuaJS r = u := by simp [fuaJS, hf]
  have hnot : ¬ (u + WINDOW < now) := by omega
  simp [fetchA, hv, hsel, hu, hnot, hfj]

/-- On the renewal path of `part_000` variant B, same shape as variant A. -/
theorem fetchB_renew (s : List CardRow) (k : String) (tRead now tWrite : Nat) (r : CardRow)
    (u : Nat) (hv : validKey5x5 k = true) (hsel : selectB s k tRead = some r)
    (hu : r.is_used = true) (hf : r.first_used_at = some u) (hle : now ≤ u + WINDOW) :
    fetchB s k tRead now tWrite = (renewedResp ((u + WINDOW : Int) - (now : Int)), s) := by
  have hfj : fuaJS r = u := by simp [fuaJS, hf]
  have hnot : ¬ (u + WINDOW < now) := by omega
  simp [fetchB, hv, hsel, hu, hnot, hfj]

/-- On the renewal path of `index.ts` (row found, used, not past its
stored `expires_at`), the handler returns `SESSION_RENEWED` with the
remaining time and leaves the store untouched. -/
theorem onRequest_renew (s : List RowIdx) (k : String) (tRead now : Nat) (r : RowIdx)
    (hv : validKey16 k = true) (hsel : selectIdx s k tRead = some r)
    (hu : r.is_used = true) (hle : now ≤ r.expires_at) :
    onRequest false s k tRead now = (renewedResp ((r.expires_at : Int) - (now : Int)), s) := by
  have hnot : ¬ (r.expires_at < now) := by omega
  simp [onRequest, hv, hsel, hu, hnot]

/-- Claim C4: idempotent renewal.  For an activated, non-expired code
(in `part_000` variant A and in `index.ts`), any two calls at branch
times `t1 < t2` within the window both return `SESSION_RENEWED` with the
remaining time recomputed from the stored state, both leave the store
exactly as it was (no field of any record is mutated), and the second
`expires_in` is strictly smaller than the first. -/
theorem C4_renewal_idempotent :
    (∀ (s : List CardRow) (k : String) (tR t1 t2 : Nat) (r : CardRow) (u : Nat),
      validKey5x5 k = true → selectA s k tR = some r → r.is_used = true →
      r.first_used_at = some u → t1 < t2 → t2 ≤ u + WINDOW →
        (fetchA s k tR t1).1 = renewedResp ((u + WINDOW : Int) - (t1 : Int))
        ∧ (fetchA s k tR t2).1 = renewedResp ((u + WINDOW : Int) - (t2 : Int))
        ∧ (fetchA s k tR t1).2 = s ∧ (fetchA s k tR t2).2 = s
        ∧ ((u + WINDOW : Int) - (t2 : Int)) < ((u + WINDOW : Int) - (t1 : Int)))
    ∧ (∀ (s : List RowIdx) (k : String) (tR t1 t2 : Nat) (r : RowIdx),
      validKey16 k = true → selectIdx s k tR = some r → r.is_used = true →
      t1 < t2 → t2 ≤ r.expires_at →
        (onRequest false s k tR t1).1 = renewedResp ((r.expires_at : Int) - (t1 : Int))
        ∧ (onRequest false s k tR t2).1 = renewedResp ((r.expires_at : Int) - (t2 : Int))
        ∧ (onRequest false s k tR t1).2 = s ∧ (onRequest false s k tR t2).2 = s
        ∧ ((r.expires_at : Int) - (t2 : Int)) < ((r.expires_at : Int) - (t1 : Int))) := by
  constructor
  · intro s k tR t1 t2 r u hv hsel hu hf h12 h2w
    have e1 := fetchA_renew s k tR t1 r u hv hsel hu hf (by omega)
    have e2 := fetchA_renew s k tR t2 r u hv hsel hu hf h2w
    rw [e1, e2]
    refine ⟨rfl, rfl, rfl, rfl, ?_⟩
    omega
  · intro s k tR t1 t2 r hv hsel hu h12 h2w
    have e1 := onRequest_renew s k tR t1 r hv hsel hu (by omega)
    have e2 := onRequest_renew s k tR t2 r hv hsel hu h2w
    rw [e1, e2]
    refine ⟨rfl, rfl, rfl, rfl, ?_⟩
    omega

/-- Witness for C4 at a concrete store: the code `K5` first used at 0,
re-resolved at branch times 100 and 200 within the window. -/
theorem C4_renewal_idempotent_witness :
    (fetchA [rowUsedAt 0] K5 10 100).1 = renewedResp ((0 + WINDOW : Int) - (100 : Nat))
    ∧ (fetchA [rowUsedAt 0] K5 10 200).1 = renewedResp ((0 + WINDOW : Int) - (200 : Nat))
    ∧ (fetchA [rowUsedAt 0] K5 10 100).2 = [rowUsedAt 0]
    ∧ (fetchA [rowUsedAt 0] K5 10 200).2 = [rowUsedAt 0]
    ∧ ((0 + WINDOW : Int) - (200 : Nat)) < ((0 + WINDOW : Int) - (100 : Nat)) :=
  C4_renewal_idempotent.1 [rowUsedAt 0] K5 10 100 200 (rowUsedAt 0) 0
    (by decide) (by decide) rfl rfl (by decide) (by decide)

/-- Claim C3, amended.  Expiry is terminal in outcome and in state: once
the clocks are past `first_used_at + WINDOW` (resp. past the stored
`expires_at` of `index.ts`), every resolve call is rejected with
`valid: false` and the store is not written - but the rejection code is
`INVALID_CARD` in variant A and `index.ts` (the filtered read excludes the
dead row), and `INVALID_CARD` or `CARD_EXPIRED` in variant B (whose read
filter lets expired rows through to the branch check).  No call ever
clears `is_used`, changes `first_used_at`, or extends the expiry, since
the store is returned unchanged. -/
theorem C3_expiry_terminal_amended :
    (∀ (s : List CardRow) (k : String) (tR tB : Nat),
      validKey5x5 k = true →
      (∀ r ∈ s, r.key_code = k →
        r.is_used = true ∧ ∃ u, r.first_used_at = some u ∧ u + WINDOW < tR ∧ u + WINDOW < tB) →
        (fetchA s k tR tB).1 = invalidCardResp ∧ (fetchA s k tR tB).2 = s)
    ∧ (∀ (s : List RowIdx) (k : String) (tR tB : Nat),
      validKey16 k = true →
      (∀ r ∈ s, r.card_key = k → r.is_used = true ∧ r.expires_at < tR ∧ r.expires_at < tB) →
        (onRequest false s k tR tB).1 = invalidCardResp ∧ (onRequest false s k tR tB).2 = s)
    ∧ (∀ (s : List CardRow) (k : String) (tR tB tW : Nat),
      validKey5x5 k = true →
      (∀ r ∈ s, r.key_code = k →
        r.is_used = true ∧ ∃ u, r.first_used_at = some u ∧ u + WINDOW < tR ∧ u + WINDOW < tB) →
        ((fetchB s k tR tB tW).1 = invalidCardResp ∨ (fetchB s k tR tB tW).1 = cardExpiredResp)
        ∧ (fetchB s k tR tB tW).2 = s) := by
  refine ⟨?_, ?_, ?_⟩
  · intro s k tR tB hv h
    have hsel : selectA s k tR = none := by
      rw [selectA, List.find?_eq_none]
      intro r hr
      simp only [Bool.and_eq_true, beq_iff_eq, Bool.or_eq_true, decide_eq_true_eq, not_and,
        Option.isNone_iff_eq_none]
      intro hk
      obtain ⟨hu, u, hfua, h1, h2⟩ := h r hr hk
      simp only [hfua, Option.getD_some, not_or]
      refine ⟨by simp, by omega⟩
    simp [fetchA, hv, hsel]
  · intro s k tR tB hv h
    have hsel : selectIdx s k tR = none := by
      rw [selectIdx, List.find?_eq_none]
      intro r hr
      simp only [Bool.and_eq_true, beq_iff_eq, decide_eq_true_eq, not_and]
      intro hk
      obtain ⟨hu, h1, h2⟩ := h r hr hk
      omega
    simp [onRequest, hv, hsel]
  · intro s k tR tB tW hv h
    cases hsel : selectB s k tR with
    | none => simp [fetchB, hv, hsel]
    | some r =>
      have hrmem : r ∈ s := List.mem_of_find?_eq_some hsel
      have hk : r.key_code = k := by
        have hp := List.find?_some hsel
        simp only [Bool.and_eq_true, beq_iff_eq] at hp
        exact hp.1
      obtain ⟨hu, u, hfua, h1, h2⟩ := h r hrmem hk
      have hfj : fuaJS r = u := by simp [fuaJS, hfua]
      have hlt : fuaJS r + WINDOW < tB := by omega
      simp [fetchB, hv, hsel, hu, hlt]

/-- Witness for amended C3 at a concrete store: code `K5` first used at
200, resolved at the single time 90000, far past the window. -/
theorem C3_expiry_terminal_amended_witness :
    (fetchA [rowUsedAt 200] K5 90000 90000).1 = invalidCardResp
    ∧ (fetchA [rowUsedAt 200] K5 90000 90000).2 = [rowUsedAt 200] :=
  C3_expiry_terminal_amended.1 [rowUsedAt 200] K5 90000 90000 (by decide)
    (by
      intro r hr hk
      rw [List.mem_singleton] at hr
      subst hr
      exact ⟨rfl, 200, rfl, by decide, by decide⟩)

/-- Claim C5: unknown-code opacity.  In `index.ts` a key absent from the
store and a key whose every matching row is past its stored expiry at the
read clock produce the literally identical `(invalidCardResp, s)` result
(same body, same HTTP 200 status, no cookie, no write); likewise in
`part_000` variant B for an absent key and for a key excluded by its read
filter (every matching row having `first_used_at + WINDOW` equal to the
read clock).  The two cases cannot be distinguished from the response. -/
theorem C5_unknown_code_opacity :
    (∀ (s : List RowIdx) (k : String) (tR tB : Nat),
      validKey16 k = true → (∀ r ∈ s, r.card_key ≠ k) →
        onRequest false s k tR tB = (invalidCardResp, s))
    ∧ (∀ (s : List RowIdx) (k : String) (tR tB : Nat),
      validKey16 k = true → (∀ r ∈ s, r.card_key = k → r.expires_at ≤ tR) →
        onRequest false s k tR tB = (invalidCardResp, s))
    ∧ (∀ (s : List CardRow) (k : String) (tR tB tW : Nat),
      validKey5x5 k = true → (∀ r ∈ s, r.key_code ≠ k) →
        fetchB s k tR tB tW = (invalidCardResp, s))
    ∧ (∀ (s : List CardRow) (k : String) (tR tB tW : Nat),
      validKey5x5 k = true →
      (∀ r ∈ s, r.key_code = k → ∃ u, r.first_used_at = some u ∧ u + WINDOW = tR) →
        fetchB s k tR tB tW = (invalidCardResp, s)) := by
  refine ⟨?_, ?_, ?_, ?_⟩
  · intro s k tR tB hv h
    have hsel : selectIdx s k tR = none := by
      rw [selectIdx, List.find?_eq_none]
      intro r hr
      simp [h r hr]
    simp [onRequest, hv, hsel]
  · intro s k tR tB hv h
    have hsel : selectIdx s k tR = none := by
      rw [selectIdx, List.find?_eq_none]
      intro r hr
      simp only [Bool.and_eq_true, beq_iff_eq, decide_eq_true_eq, not_and]
      intro hk
      have := h r hr hk
      omega
    simp [onRequest, hv, hsel]
  · intro s k tR tB tW hv h
    have hsel : selectB s k tR = none := by
      rw [selectB, List.find?_eq_none]
      intro r hr
      simp [h r hr]
    simp [fetchB, hv, hsel]
  · intro s k tR tB tW hv h
    have hsel : selectB s k tR = none := by
      rw [selectB, List.find?_eq_none]
      intro r hr
      simp only [Bool.and_eq_true, beq_iff_eq, Bool.or_eq_true, decide_eq_true_eq, not_and,
        not_or, Option.isNone_iff_eq_none]
      intro hk
      obtain ⟨u, hfua, he⟩ := h r hr hk
      simp only [hfua, Option.getD_some]
      refine ⟨by simp, by omega⟩
    simp [fetchB, hv, hsel]

/-- Witness for C5: the valid key of all `A`s against a store holding only
the (different) key `K16`, and against a store whose only `K16` row is
expired at the read clock - both calls produce the identical result. -/
theorem C5_unknown_code_opacity_witness :
    onRequest false [rowIdxFresh] "AAAAAAAAAAAAAAAA" 3 3 = (invalidCardResp, [rowIdxFresh])
    ∧ onRequest false [rowIdxUsed 50 1] K16 60 60 = (invalidCardResp, [rowIdxUsed 50 1]) :=
  ⟨C5_unknown_code_opacity.1 [rowIdxFresh] "AAAAAAAAAAAAAAAA" 3 3 (by decide)
    (by intro r hr; rw [List.mem_singleton] at hr; subst hr; decide),
   C5_unknown_code_opacity.2.1 [rowIdxUsed 50 1] K16 60 60 (by decide)
    (by intro r hr hk; rw [List.mem_singleton] at hr; subst hr; decide)⟩

/-- Claim C6, amended.  On the renewal path the returned `expires_in` is
recomputed from the authoritative stored state - `first_used_at + WINDOW - now`
in `part_000` variant B, `expires_at - now` in `index.ts` - and is always
at least 0; it is strictly positive whenever the branch uses the same time
value as the read filter, and the value 0 is reachable only when the
branch clock has advanced past the read clock (as in the counterexample). -/
theorem C6_renewal_remaining_amended :
    (∀ (s : List CardRow) (k : String) (tR tB tW : Nat) (r : CardRow) (u : Nat),
      validKey5x5 k = true → selectB s k tR = some r → r.is_used = true →
      r.first_used_at = some u → tB ≤ u + WINDOW →
        (fetchB s k tR tB tW).1 = renewedResp ((u + WINDOW : Int) - (tB : Int))
        ∧ (0 : Int) ≤ (u + WINDOW : Int) - (tB : Int)
        ∧ (tR = tB → (0 : Int) < (u + WINDOW : Int) - (tB : Int)))
    ∧ (∀ (s : List RowIdx) (k : String) (tR tB : Nat) (r : RowIdx),
      validKey16 k = true → selectIdx s k tR = some r → r.is_used = true →
      tB ≤ r.expires_at →
        (onRequest false s k tR tB).1 = renewedResp ((r.expires_at : Int) - (tB : Int))
        ∧ (0 : Int) ≤ (r.expires_at : Int) - (tB : Int)
        ∧ (tR = tB → (0 : Int) < (r.expires_at : Int) - (tB : Int))) := by
  constructor
  · intro s k tR tB tW r u hv hsel hu hf hle
    have he := fetchB_renew s k tR tB tW r u hv hsel hu hf hle
    refine ⟨by rw [he], by omega, ?_⟩
    intro hrb
    have hp := List.find?_some hsel
    simp only [Bool.and_eq_true, beq_iff_eq, Bool.or_eq_true, decide_eq_true_eq, hf,
      Option.isNone_some, Option.getD_some] at hp
    rcases hp.2 with h3 | h3
    · exact absurd h3 (by simp)
    · omega
  · intro s k tR tB r hv hsel hu hle
    have he := onRequest_renew s k tR tB r hv hsel hu hle
    refine ⟨by rw [he], by omega, ?_⟩
    intro hrb
    have hp := List.find?_some hsel
    simp only [Bool.and_eq_true, beq_iff_eq, decide_eq_true_eq] at hp
    omega

/-- Witness for amended C6: code `K5` first used at 10, renewed under a
single clock at time 1000 by variant B. -/
theorem C6_renewal_remaining_amended_witness :
    (fetchB [rowUsedAt 10] K5 1000 1000 1000).1 = renewedResp ((10 + WINDOW : Int) - (1000 : Nat))
    ∧ (0 : Int) ≤ (10 + WINDOW : Int) - (1000 : Nat)
    ∧ (1000 = 1000 → (0 : Int) < (10 + WINDOW : Int) - (1000 : Nat)) :=
  C6_renewal_remaining_amended.1 [rowUsedAt 10] K5 1000 1000 1000 (rowUsedAt 10) 10
    (by decide) (by decide) rfl rfl (by decide)

/-- Claim C7.  Malformed keys are rejected before any store access in all
three variants: the response is independent of the store contents and the
store is returned unchanged.  `index.ts` and `part_000` variant A attach
HTTP status 400 to the `INVALID_INPUT` rejection, but `part_000` variant B
builds its `INVALID_INPUT` response without a status field, so it goes out
with HTTP 200 - contradicting the claimed status 400 (first conjuncts,
evaluated at the malformed input `bad-format`). -/
theorem C7_input_rejection_status :
    (fetchB [] "bad-format" 0 0 0).1 = invalidInputResp200
    ∧ invalidInputResp200.status = 200
    ∧ (onRequest false [] "bad-format" 0 0).1 = invalidInputResp400
    ∧ (fetchA [] "bad-format" 0 0).1 = invalidInputResp400
    ∧ invalidInputResp400.status = 400
    ∧ (∀ (s1 s2 : List RowIdx) (k : String) (tR tB : Nat) (dbF : Bool),
        validKey16 k = false →
          onRequest dbF s1 k tR tB = (invalidInputResp400, s1)
          ∧ (onRequest dbF s1 k tR tB).1 = (onRequest dbF s2 k tR tB).1)
    ∧ (∀ (s1 s2 : List CardRow) (k : String) (tR tB tW : Nat),
        validKey5x5 k = false →
          fetchB s1 k tR tB tW = (invalidInputResp200, s1)
          ∧ (fetchB s1 k tR tB tW).1 = (fetchB s2 k tR tB tW).1)
    ∧ (∀ (s1 s2 : List CardRow) (k : String) (tR tB : Nat),
        validKey5x5 k = false →
          fetchA s1 k tR tB = (invalidInputResp400, s1)
          ∧ (fetchA s1 k tR tB).1 = (fetchA s2 k tR tB).1) := by
  refine ⟨by decide, rfl, by decide, by decide, rfl, ?_, ?_, ?_⟩
  · intro s1 s2 k tR tB dbF hv
    constructor
    · simp [onRequest, hv]
    · simp [onRequest, hv]
  · intro s1 s2 k tR tB tW hv
    constructor
    · simp [fetchB, hv]
    · simp [fetchB, hv]
  · intro s1 s2 k tR tB hv
    constructor
    · simp [fetchA, hv]
    · simp [fetchA, hv]

/-- Witness for C7 at the malformed key `bad-format` against two unequal
stores: the rejection result is the same and the store is untouched. -/
theorem C7_input_rejection_status_witness :
    onRequest true [rowIdxFresh] "bad-format" 1 2 = (invalidInputResp400, [rowIdxFresh])
    ∧ (onRequest true [rowIdxFresh] "bad-format" 1 2).1 = (onRequest true [] "bad-format" 1 2).1 :=
  C7_input_rejection_status.2.2.2.2.2.1 [rowIdxFresh] [] "bad-format" 1 2 true (by decide)

/-- Claim C8.  In `index.ts` the domain rejections `INVALID_CARD` and
`CARD_EXPIRED` are ordinary HTTP 200 responses with `valid: false` (they
are returned values, never faults), a `SERVER_ERROR` response carries
HTTP 500 and can only arise from an injected store/runtime failure, and
without such a failure `SERVER_ERROR` is unreachable. -/
theorem C8_error_surface :
    ∀ (dbF : Bool) (s : List RowIdx) (k : String) (tR tB : Nat),
      (((onRequest dbF s k tR tB).1.code = RCode.INVALID_CARD
          ∨ (onRequest dbF s k tR tB).1.code = RCode.CARD_EXPIRED) →
        (onRequest dbF s k tR tB).1.status = 200 ∧ (onRequest dbF s k tR tB).1.valid = false)
      ∧ ((onRequest dbF s k tR tB).1.code = RCode.SERVER_ERROR →
        (onRequest dbF s k tR tB).1.status = 500 ∧ dbF = true)
      ∧ (dbF = false → ((onRequest dbF s k tR tB).1.code == RCode.SERVER_ERROR) = false) := by
  intro dbF s k tR tB
  unfold onRequest
  split
  · refine ⟨fun h => ?_, fun h => ?_, fun h => rfl⟩
    · rcases h with h | h <;> cases h
    · cases h
  · split
    · next hdb2 =>
      refine ⟨fun h => ?_, fun h => ⟨rfl, hdb2⟩, fun h => ?_⟩
      · rcases h with h | h <;> cases h
      · rw [h] at hdb2
        cases hdb2
    · split
      · refine ⟨fun h => ⟨rfl, rfl⟩, fun h => ?_, fun h => rfl⟩
        cases h
      · split
        · split
          · refine ⟨fun h => ⟨rfl, rfl⟩, fun h => ?_, fun h => rfl⟩
            cases h
          · refine ⟨fun h => ?_, fun h => ?_, fun h => rfl⟩
            · rcases h with h | h <;> cases h
            · cases h
        · refine ⟨fun h => ?_, fun h => ?_, fun h => rfl⟩
          · rcases h with h | h <;> cases h
          · cases h

/-- Witness for C8: with an injected store failure the valid key `K16`
yields HTTP 500, and a domain rejection (empty store) yields HTTP 200
with valid false. -/
theorem C8_error_surface_witness :
    ((onRequest true [] K16 0 0).1.status = 500 ∧ true = true)
    ∧ ((onRequest false [] K16 0 0).1.status = 200 ∧ (onRequest false [] K16 0 0).1.valid = false) :=
  ⟨(C8_error_surface true [] K16 0 0).2.1 (by decide),
   (C8_error_surface false [] K16 0 0).1 (Or.inl (by decide))⟩

/-- The record invariant of spec section 3: `first_used_at` is set (non
NULL) exactly when `is_used` is true. -/
def UsedIffStamped (r : CardRow) : Prop :=
  r.is_used = true ↔ r.first_used_at.isSome = true

/-- The variant A activation UPDATE stamps `is_used` and `first_used_at`
together, so it preserves the record invariant on every row. -/
theorem updateA_inv (s : List CardRow) (k : String) (t : Nat)
    (h : ∀ r ∈ s, UsedIffStamped r) : ∀ r ∈ updateA s k t, UsedIffStamped r := by
  intro r hr
  rw [updateA, List.mem_map] at hr
  obtain ⟨a, ha, hfa⟩ := hr
  subst hfa
  by_cases hk : (a.key_code == k) = true
  · simp [hk, UsedIffStamped]
  · rw [if_neg hk]
    exact h a ha

/-- The variant B activation UPDATE stamps `is_used` and `first_used_at`
together, so it preserves the record invariant on every row. -/
theorem updateB_inv (s : List CardRow) (k : String) (t : Nat)
    (h : ∀ r ∈ s, UsedIffStamped r) : ∀ r ∈ updateB s k t, UsedIffStamped r := by
  intro r hr
  rw [updateB, List.mem_map] at hr
  obtain ⟨a, ha, hfa⟩ := hr
  subst hfa
  by_cases hk : (a.key_code == k) = true
  · simp [hk, UsedIffStamped]
  · rw [if_neg hk]
    exact h a ha

/-- Case analysis on a variant A call: either it is the activation path
and the new store is the UPDATE of the old one, or the code is not
`ACTIVATION_SUCCESS` and the store is returned unchanged. -/
theorem fetchA_cases (s : List CardRow) (k : String) (tR tB : Nat) :
    ((fetchA s k tR tB).1.code = RCode.ACTIVATION_SUCCESS
      ∧ (fetchA s k tR tB).2 = updateA s k tB)
    ∨ (((fetchA s k tR tB).1.code == RCode.ACTIVATION_SUCCESS) = false
      ∧ (fetchA s k tR tB).2 = s) := by
  unfold fetchA
  split
  · exact Or.inr ⟨rfl, rfl⟩
  · split
    · exact Or.inr ⟨rfl, rfl⟩
    · split
      · split
        · exact Or.inr ⟨rfl, rfl⟩
        · exact Or.inr ⟨rfl, rfl⟩
      · exact Or.inl ⟨rfl, rfl⟩

/-- Case analysis on a variant B call, as for variant A. -/
theorem fetchB_cases (s : List CardRow) (k : String) (tR tB tW : Nat) :
    ((fetchB s k tR tB tW).1.code = RCode.ACTIVATION_SUCCESS
      ∧ (fetchB s k tR tB tW).2 = updateB s k tW)
    ∨ (((fetchB s k tR tB tW).1.code == RCode.ACTIVATION_SUCCESS) = false
      ∧ (fetchB s k tR tB tW).2 = s) := by
  unfold fetchB
  split
  · exact Or.inr ⟨rfl, rfl⟩
  · split
    · exact Or.inr ⟨rfl, rfl⟩
    · split
      · split
        · exact Or.inr ⟨rfl, rfl⟩
        · exact Or.inr ⟨rfl, rfl⟩
      · exact Or.inl ⟨rfl, rfl⟩

/-- Claim C9.  For any store whose records satisfy the invariant
`is_used = true` iff `first_used_at` is set, the store produced by a
variant A or variant B call satisfies it again (the activation UPDATE
sets both fields together), and on every non-activation outcome the store
is returned exactly unchanged (no other operation writes either field). -/
theorem C9_used_iff_first_used_at :
    ∀ (s : List CardRow) (k : String) (tR tB tW : Nat),
      (∀ r ∈ s, UsedIffStamped r) →
        (∀ r ∈ (fetchA s k tR tB).2, UsedIffStamped r)
        ∧ (∀ r ∈ (fetchB s k tR tB tW).2, UsedIffStamped r)
        ∧ (((fetchA s k tR tB).1.code == RCode.ACTIVATION_SUCCESS) = false →
            (fetchA s k tR tB).2 = s)
        ∧ (((fetchB s k tR tB tW).1.code == RCode.ACTIVATION_SUCCESS) = false →
            (fetchB s k tR tB tW).2 = s) := by
  intro s k tR tB tW h
  refine ⟨?_, ?_, ?_, ?_⟩
  · rcases fetchA_cases s k tR tB with ⟨hc, hst⟩ | ⟨hc, hst⟩
    · rw [hst]
      exact updateA_inv s k tB h
    · rw [hst]
      exact h
  · rcases fetchB_cases s k tR tB tW with ⟨hc, hst⟩ | ⟨hc, hst⟩
    · rw [hst]
      exact updateB_inv s k tW h
    · rw [hst]
      exact h
  · intro hne
    rcases fetchA_cases s k tR tB with ⟨hc, hst⟩ | ⟨hc, hst⟩
    · rw [hc] at hne
      cases hne
    · exact hst
  · intro hne
    rcases fetchB_cases s k tR tB tW with ⟨hc, hst⟩ | ⟨hc, hst⟩
    · rw [hc] at hne
      cases hne
    · exact hst

/-- Witness for C9: a renewal call by variant B on a store satisfying the
invariant leaves the store unchanged. -/
theorem C9_used_iff_first_used_at_witness :
    (fetchB [rowUsedAt 5] K5 0 0 0).2 = [rowUsedAt 5] := by
  have hw := C9_used_iff_first_used_at [rowUsedAt 5] K5 0 0 0
    (by intro r hr; rw [List.mem_singleton] at hr; subst hr; simp [UsedIffStamped, rowUsedAt])
  exact hw.2.2.2 (by decide)

/-- Claim C10, amended.  In `index.ts`, when the branch uses the same
time value as the read filter, `CARD_EXPIRED` is indeed unreachable (the
filtered read only returns rows with `expires_at` strictly in the
future); the same holds for `part_000` variant A on stores satisfying the
record invariant.  In variant B, however, the read filter passes expired
rows (its `>0` applies to the whole OR expression), so `CARD_EXPIRED` is
reachable even with a single clock value for read, branch and write, as
the last conjunct shows on a concrete expired record. -/
theorem C10_card_expired_single_clock_amended :
    (∀ (dbF : Bool) (s : List RowIdx) (k : String) (t : Nat),
      ((onRequest dbF s k t t).1.code == RCode.CARD_EXPIRED) = false)
    ∧ (∀ (s : List CardRow) (k : String) (t : Nat),
      (∀ r ∈ s, UsedIffStamped r) →
        ((fetchA s k t t).1.code == RCode.CARD_EXPIRED) = false)
    ∧ (fetchB [rowUsedAt 1] K5 90000 90000 90000).1 = cardExpiredResp := by
  refine ⟨?_, ?_, by decide⟩
  · intro dbF s k t
    unfold onRequest
    split
    · rfl
    · split
      · rfl
      · split
        · rfl
        · next r heq =>
          split
          · split
            · next hu hexp =>
              exfalso
              have hp := List.find?_some heq
              simp only [Bool.and_eq_true, beq_iff_eq, decide_eq_true_eq] at hp
              omega
            · rfl
          · rfl
  · intro s k t hinv
    unfold fetchA
    split
    · rfl
    · split
      · rfl
      · next r heq =>
        split
        · next hu =>
          split
          · next hexp =>
            exfalso
            have hp := List.find?_some heq
            have hmem : r ∈ s := List.mem_of_find?_eq_some heq
            have hsome : r.first_used_at.isSome = true := (hinv r hmem).mp hu
            obtain ⟨u, hfua⟩ := Option.isSome_iff_exists.mp hsome
            simp only [Bool.and_eq_true, beq_iff_eq, Bool.or_eq_true, decide_eq_true_eq,
              hfua, Option.isNone_some, Option.getD_some] at hp
            have hfj : fuaJS r = u := by simp [fuaJS, hfua]
            rw [hfj] at hexp
            rcases hp.2 with h3 | h3
            · cases h3
            · omega
          · rfl
        · rfl

/-- Witness for amended C10: a concrete invariant-satisfying store where
variant A under a single clock does not produce `CARD_EXPIRED`. -/
theorem C10_card_expired_single_clock_amended_witness :
    ((fetchA [rowUsedAt 3] K5 7 7).1.code == RCode.CARD_EXPIRED) = false :=
  C10_card_expired_single_clock_amended.2.1 [rowUsedAt 3] K5 7
    (by
      intro r hr
      rw [List.mem_singleton] at hr
      subst hr
      simp [UsedIffStamped, rowUsedAt])
